import Mathlib

/-!
# Verification of the EPL analysis transform stage

Shallow embedding of `scripts/02_transform.py` (with the data model produced
by `scripts/01_clean.py`): the league standings engine, cumulative points
series, cross-source xG analytics, player reconciliation (`enrich`),
leaderboards, the money-vs-points regression and the assembled output
document.  Numeric values are modelled with exact rationals; Python's
`round(x, d)` is modelled by `safe_float` below (round half up; the source's
half-even behaviour differs only at exact midpoints, which no claim touches).
Strings are compared lexicographically by character code, as Python does.
-/

namespace EPL

/-- Lexicographic `≤` on character lists: the order Python's `sorted` uses on
strings (code-point lexicographic). -/
def lcLe : List Char → List Char → Bool
  | [], _ => true
  | _ :: _, [] => false
  | a :: as, b :: bs => if a = b then lcLe as bs else decide (a < b)

/-- Strict lexicographic `<` on character lists. -/
def lcLt : List Char → List Char → Bool
  | [], [] => false
  | [], _ :: _ => true
  | _ :: _, [] => false
  | a :: as, b :: bs => if a = b then lcLt as bs else decide (a < b)

/-- Python string `<=` (for `sorted` on team names, dates, months…). -/
def str_le (a b : String) : Prop := lcLe a.data b.data = true

/-- Python string `<` (alphabetical order, strictly). -/
def str_lt (a b : String) : Prop := lcLt a.data b.data = true

instance : DecidableRel str_le := fun _ _ => inferInstanceAs (Decidable (_ = true))

instance : DecidableRel str_lt := fun _ _ => inferInstanceAs (Decidable (_ = true))

theorem lcLe_total : ∀ a b : List Char, lcLe a b = true ∨ lcLe b a = true
  | [], _ => by left; rfl
  | _ :: _, [] => by right; rfl
  | a :: as, b :: bs => by
    by_cases hab : a = b
    · subst hab
      simpa [lcLe] using lcLe_total as bs
    · rcases lt_or_gt_of_ne hab with h | h
      · left; simp [lcLe, hab, h]
      · right; simp [lcLe, Ne.symm hab, h, not_lt_of_gt h]

theorem lcLe_trans : ∀ a b c : List Char,
    lcLe a b = true → lcLe b c = true → lcLe a c = true
  | [], _, _ => by intros; rfl
  | _ :: _, [], _ => by simp [lcLe]
  | _ :: _, _ :: _, [] => by simp [lcLe]
  | a :: as, b :: bs, c :: cs => by
    by_cases hab : a = b <;> by_cases hbc : b = c
    · subst hab; subst hbc
      simpa [lcLe] using lcLe_trans as bs cs
    · subst hab
      simp [lcLe, hbc]
    · subst hbc
      simp only [lcLe, if_neg hab, decide_eq_true_eq]
      exact fun h _ => h
    · simp only [lcLe, if_neg hab, if_neg hbc, decide_eq_true_eq]
      intro h1 h2
      have hac : a < c := lt_trans h1 h2
      simp [ne_of_lt hac, hac]

theorem lcLt_of_le_of_ne : ∀ a b : List Char,
    lcLe a b = true → a ≠ b → lcLt a b = true
  | [], [] => by intro _ h; exact absurd rfl h
  | [], _ :: _ => by intros; rfl
  | _ :: _, [] => by simp [lcLe]
  | a :: as, b :: bs => by
    by_cases hab : a = b
    · subst hab
      intro h1 h2
      have : as ≠ bs := fun h => h2 (by rw [h])
      simpa [lcLt] using lcLt_of_le_of_ne as bs (by simpa [lcLe] using h1) this
    · simp [lcLe, lcLt, hab]

theorem str_le_total : ∀ a b : String, str_le a b ∨ str_le b a :=
  fun a b => lcLe_total a.data b.data

theorem str_le_trans : ∀ a b c : String, str_le a b → str_le b c → str_le a c :=
  fun a b c => lcLe_trans a.data b.data c.data

theorem str_lt_of_le_of_ne {a b : String} (h1 : str_le a b) (h2 : a ≠ b) : str_lt a b :=
  lcLt_of_le_of_ne a.data b.data h1
    (fun h => h2 (by cases a; cases b; exact congrArg String.mk (by simpa using h)))

instance : IsTotal String str_le := ⟨str_le_total⟩

instance : IsTrans String str_le := ⟨str_le_trans⟩

/-- Python's `round(x, d)` (as used through `safe_float`): round to `d`
decimal places.  Exact-rational model; ties round half up. -/
def safe_float (d : Nat) (q : ℚ) : ℚ := ((round (q * (10 : ℚ) ^ d) : ℤ) : ℚ) / (10 : ℚ) ^ d

theorem safe_float_zero (d : Nat) : safe_float d 0 = 0 := by
  simp [safe_float]

theorem abs_safe_float_sub_le (d : Nat) (q : ℚ) :
    |safe_float d q - q| ≤ 1 / (2 * (10 : ℚ) ^ d) := by
  have hpow : (0 : ℚ) < (10 : ℚ) ^ d := by positivity
  have h := abs_sub_round (q * (10 : ℚ) ^ d)
  rw [abs_sub_comm] at h
  have key : safe_float d q - q = ((round (q * (10 : ℚ) ^ d) : ℤ) - q * (10 : ℚ) ^ d) / (10 : ℚ) ^ d := by
    field_simp [safe_float]
    ring
  rw [key, abs_div, abs_of_pos hpow, div_le_div_iff₀ hpow (by positivity)]
  calc |(round (q * (10 : ℚ) ^ d) : ℚ) - q * (10 : ℚ) ^ d| * (2 * (10 : ℚ) ^ d)
      ≤ (1 / 2) * (2 * (10 : ℚ) ^ d) := by
        apply mul_le_mul_of_nonneg_right h (by positivity)
    _ = 1 * (10 : ℚ) ^ d := by ring

/-! ## Data model (from `01_clean.py` output, as read by `02_transform.py`) -/

/-- Full-time result code of a match: home win / draw / away win. -/
inductive MRes where
  | H
  | D
  | A
deriving DecidableEq

/-- One cleaned match record (`matches_clean.csv` row), restricted to the
columns `02_transform.py` reads. -/
structure Match where
  match_id : Nat
  season : String
  date : String
  home_team : String
  away_team : String
  home_goals : Nat
  away_goals : Nat
  result : MRes
  referee : String
  home_shots : Nat
  away_shots : Nat
  home_shots_on_target : Nat
  away_shots_on_target : Nat
  home_reds : Nat
  away_reds : Nat
  total_goals : Nat
  total_fouls : Nat
  total_cards : Nat
deriving DecidableEq

/-- `CURRENT_SEASON` from `config.py`. -/
def CURRENT_SEASON : String := "2025-26"

/-- Keys of `ACTIVE_SEASONS` from `config.py`, in declaration order. -/
def ACTIVE_SEASON_KEYS : List String := ["2022-23", "2023-24", "2024-25", "2025-26"]

/-- `FULL_SEASON_MATCHES` from `02_transform.py`. -/
def FULL_SEASON_MATCHES : Nat := 380

/-- One league-table row, as built by `build_team_stats`.  The `position`
field is `0` until `set_positions` assigns the 1-based rank (the Python dict
has no `position` key until after the sort). -/
structure TeamRow where
  team : String
  played : Nat
  won : Nat
  drawn : Nat
  lost : Nat
  goals_for : Nat
  goals_against : Nat
  goal_difference : Int
  points : Nat
  home_won : Nat
  home_drawn : Nat
  home_lost : Nat
  away_won : Nat
  away_drawn : Nat
  away_lost : Nat
  clean_sheets : Nat
  total_shots : Nat
  total_shots_on_target : Nat
  shot_accuracy : ℚ
  goals_per_game : ℚ
  position : Nat
deriving DecidableEq

/-! ## Standings engine (`build_team_stats` and the league table) -/

/-- `shot_acc = safe_float(total_sot / total_shots * 100) if total_shots > 0 else 0.0`. -/
def shot_accuracy_calc (sot shots : Nat) : ℚ :=
  if shots > 0 then safe_float 2 ((sot : ℚ) / (shots : ℚ) * 100) else 0

/-- `build_team_stats(team_matches, team_name)` from `02_transform.py`. -/
def build_team_stats (ms : List Match) (t : String) : TeamRow :=
  let home := ms.filter (fun m => decide (m.home_team = t))
  let away := ms.filter (fun m => decide (m.away_team = t))
  let hw := (home.filter (fun m => decide (m.result = MRes.H))).length
  let hd := (home.filter (fun m => decide (m.result = MRes.D))).length
  let hl := (home.filter (fun m => decide (m.result = MRes.A))).length
  let aw := (away.filter (fun m => decide (m.result = MRes.A))).length
  let ad := (away.filter (fun m => decide (m.result = MRes.D))).length
  let al := (away.filter (fun m => decide (m.result = MRes.H))).length
  let gf := (home.map (fun m => m.home_goals)).sum + (away.map (fun m => m.away_goals)).sum
  let ga := (home.map (fun m => m.away_goals)).sum + (away.map (fun m => m.home_goals)).sum
  let total_shots := (home.map (fun m => m.home_shots)).sum + (away.map (fun m => m.away_shots)).sum
  let total_sot := (home.map (fun m => m.home_shots_on_target)).sum
    + (away.map (fun m => m.away_shots_on_target)).sum
  let shot_acc : ℚ := shot_accuracy_calc total_sot total_shots
  let cs_home := (home.filter (fun m => decide (m.away_goals = 0))).length
  let cs_away := (away.filter (fun m => decide (m.home_goals = 0))).length
  let played := hw + hd + hl + aw + ad + al
  let won := hw + aw
  let drawn := hd + ad
  let lost := hl + al
  let pts := won * 3 + drawn
  { team := t
    played := played
    won := won
    drawn := drawn
    lost := lost
    goals_for := gf
    goals_against := ga
    goal_difference := (gf : ℤ) - (ga : ℤ)
    points := pts
    home_won := hw
    home_drawn := hd
    home_lost := hl
    away_won := aw
    away_drawn := ad
    away_lost := al
    clean_sheets := cs_home + cs_away
    total_shots := total_shots
    total_shots_on_target := total_sot
    shot_accuracy := shot_acc
    goals_per_game := if played > 0 then safe_float 2 ((gf : ℚ) / (played : ℚ)) else 0
    position := 0 }

/-- `teams = sorted(set(current['home_team'].unique()) | set(current['away_team'].unique()))`. -/
def teams_of (ms : List Match) : List String :=
  ((ms.map (fun m => m.home_team) ++ ms.map (fun m => m.away_team)).dedup).insertionSort str_le

/-- `table_rows = [build_team_stats(current, t) for t in teams]`. -/
def table_rows_unsorted (ms : List Match) : List TeamRow :=
  (teams_of ms).map (build_team_stats ms)

/-- The comparison behind
`table_rows.sort(key=lambda x: (-x['points'], -x['goal_difference'], -x['goals_for']))`:
`a` may come before `b` iff the key tuple of `a` is lexicographically `≤` that
of `b`, i.e. `(points, goal_difference, goals_for)` of `b` is `≤` that of `a`
in descending reading. -/
def row_le (a b : TeamRow) : Prop :=
  (decide (b.points < a.points) ||
    (decide (b.points = a.points) &&
      (decide (b.goal_difference < a.goal_difference) ||
        (decide (b.goal_difference = a.goal_difference) &&
          decide (b.goals_for ≤ a.goals_for))))) = true

instance : DecidableRel row_le := fun _ _ => inferInstanceAs (Decidable (_ = true))

theorem row_le_iff (a b : TeamRow) : row_le a b ↔
    (b.points < a.points ∨ (b.points = a.points ∧
      (b.goal_difference < a.goal_difference ∨ (b.goal_difference = a.goal_difference ∧
        b.goals_for ≤ a.goals_for)))) := by
  simp [row_le]

instance : IsTotal TeamRow row_le := by
  refine ⟨fun a b => ?_⟩
  rw [row_le_iff, row_le_iff]
  omega

instance : IsTrans TeamRow row_le := by
  refine ⟨fun a b c hab hbc => ?_⟩
  rw [row_le_iff] at *
  omega

/-- `for i, row in enumerate(table_rows): row['position'] = i + 1`. -/
def set_positions : Nat → List TeamRow → List TeamRow
  | _, [] => []
  | i, r :: rest => { r with position := i } :: set_positions (i + 1) rest

/-- The season's league table: team rows sorted by the descending
`(points, goal_difference, goals_for)` key (a stable sort, as Python's
`list.sort` is), with 1-based positions assigned. -/
def league_table (ms : List Match) : List TeamRow :=
  set_positions 1 ((table_rows_unsorted ms).insertionSort row_le)

/-! ## Cumulative points series -/

/-- `home_matches['result'].map({'H': 3, 'D': 1, 'A': 0})`. -/
def home_pts (m : Match) : Nat :=
  match m.result with
  | MRes.H => 3
  | MRes.D => 1
  | MRes.A => 0

/-- `away_matches['result'].map({'A': 3, 'D': 1, 'H': 0})`. -/
def away_pts (m : Match) : Nat :=
  match m.result with
  | MRes.A => 3
  | MRes.D => 1
  | MRes.H => 0

/-- Date comparison used by `current.sort_values('date')`. -/
def date_le (a b : Match) : Prop := lcLe a.date.data b.date.data = true

instance : DecidableRel date_le := fun _ _ => inferInstanceAs (Decidable (_ = true))

/-- Date comparison on `(date, pts)` pairs, used by the per-team
`.sort_values('date')` on the concatenated home/away frames. -/
def pair_date_le (a b : String × Nat) : Prop := lcLe a.1.data b.1.data = true

instance : DecidableRel pair_date_le := fun _ _ => inferInstanceAs (Decidable (_ = true))

/-- `current_sorted = current.sort_values('date')` (a stable sort). -/
def current_sorted (ms : List Match) : List Match := ms.insertionSort date_le

/-- The concatenated `(date, pts)` rows of a team's home and away matches. -/
def team_pair_list (ms : List Match) (t : String) : List (String × Nat) :=
  ((current_sorted ms).filter (fun m => decide (m.home_team = t))).map
      (fun m => (m.date, home_pts m))
    ++ ((current_sorted ms).filter (fun m => decide (m.away_team = t))).map
      (fun m => (m.date, away_pts m))

/-- The team's per-match points in chronological order
(`pd.concat([...]).sort_values('date')`, then the `pts` column). -/
def team_pts_list (ms : List Match) (t : String) : List Nat :=
  ((team_pair_list ms t).insertionSort pair_date_le).map Prod.snd

/-- `all_matches['pts'].cumsum()`. -/
def running_sums : Nat → List Nat → List Nat
  | _, [] => []
  | acc, p :: rest => (acc + p) :: running_sums (acc + p) rest

/-- `cumulative_points[team]`: `(matchday, points)` pairs, matchday being the
1-based sequential index. -/
def cumulative_points (ms : List Match) (t : String) : List (Nat × Nat) :=
  ((running_sums 0 (team_pts_list ms t)).enum).map (fun p => (p.1 + 1, p.2))

/-! ## Stability of the sorts

Python's `list.sort` is stable.  Mathlib's `insertionSort` is the (unique)
stable sort for a total preorder; the next two lemmas express the form of
stability we need: a pairwise property of the input that is vacuous on
strictly-ordered pairs survives sorting. -/

theorem orderedInsert_pairwise {α : Type} {r : α → α → Prop} [DecidableRel r]
    {S : α → α → Prop} {a : α} (hS : ∀ b, ¬ r a b → S b a) :
    ∀ {l : List α}, l.Pairwise S → (∀ b ∈ l, S a b) → (l.orderedInsert r a).Pairwise S
  | [], _, _ => List.pairwise_singleton S a
  | b :: t, h, ha => by
    rcases List.pairwise_cons.mp h with ⟨h1, h2⟩
    by_cases hr : r a b
    · rw [List.orderedInsert, if_pos hr]
      exact List.Pairwise.cons ha h
    · rw [List.orderedInsert, if_neg hr]
      refine List.Pairwise.cons ?_ ?_
      · intro x hx
        rcases (List.mem_orderedInsert ..).mp hx with rfl | hx
        · exact hS b hr
        · exact h1 x hx
      · exact orderedInsert_pairwise hS h2 (fun x hx => ha x (List.mem_cons_of_mem _ hx))

theorem insertionSort_pairwise {α : Type} {r : α → α → Prop} [DecidableRel r]
    {S : α → α → Prop} (hS : ∀ a b, ¬ r a b → S b a) :
    ∀ {l : List α}, l.Pairwise S → (l.insertionSort r).Pairwise S
  | [], _ => List.Pairwise.nil
  | a :: t, h => by
    rcases List.pairwise_cons.mp h with ⟨h1, h2⟩
    rw [List.insertionSort]
    exact orderedInsert_pairwise (hS a) (insertionSort_pairwise hS h2)
      (fun b hb => h1 b ((List.mem_insertionSort r).mp hb))

/-! ## Facts about `set_positions` -/

theorem set_positions_length : ∀ (i : Nat) (l : List TeamRow),
    (set_positions i l).length = l.length
  | _, [] => rfl
  | i, _ :: t => by simp [set_positions, set_positions_length (i + 1) t]

theorem set_positions_map_position : ∀ (i : Nat) (l : List TeamRow),
    (set_positions i l).map (fun r => r.position) = List.range' i l.length
  | _, [] => rfl
  | i, r :: t => by
    simp [set_positions, set_positions_map_position (i + 1) t, List.range'_succ]

theorem mem_set_positions {x : TeamRow} : ∀ {i : Nat} {l : List TeamRow},
    x ∈ set_positions i l → ∃ y ∈ l, ∃ j, x = { y with position := j }
  | _, [], h => absurd h (List.not_mem_nil x)
  | i, r :: t, h => by
    rcases List.mem_cons.mp h with rfl | h
    · exact ⟨r, List.mem_cons_self r t, i, rfl⟩
    · rcases mem_set_positions h with ⟨y, hy, j, hx⟩
      exact ⟨y, List.mem_cons_of_mem r hy, j, hx⟩

theorem set_positions_pairwise {P : TeamRow → TeamRow → Prop}
    (hP : ∀ (a b : TeamRow) (i j : Nat),
      P a b → P { a with position := i } { b with position := j }) :
    ∀ (i : Nat) {l : List TeamRow}, l.Pairwise P → (set_positions i l).Pairwise P
  | _, [], _ => List.Pairwise.nil
  | i, r :: t, h => by
    rcases List.pairwise_cons.mp h with ⟨h1, h2⟩
    refine List.Pairwise.cons ?_ (set_positions_pairwise hP (i + 1) h2)
    intro x hx
    rcases mem_set_positions hx with ⟨y, hy, j, rfl⟩
    exact hP r y i j (h1 y hy)

/-! ## C1: league table ordering and positions -/

/-- The ordering relation of the claim: for `a` listed before `b`, either `a`
has more points, or equal points and more goal difference, or equal on both
and at least as many goals scored. -/
def claim_order (a b : TeamRow) : Prop :=
  a.points > b.points ∨
    (a.points = b.points ∧ a.goal_difference > b.goal_difference) ∨
    (a.points = b.points ∧ a.goal_difference = b.goal_difference ∧ a.goals_for ≥ b.goals_for)

theorem row_le_iff_claim_order (a b : TeamRow) : row_le a b ↔ claim_order a b := by
  rw [row_le_iff]
  unfold claim_order
  omega

/-- C1: In the league table produced from one season's match records, for any
two teams A listed before B, either A.points > B.points, or they have equal
points and A.goal_difference > B.goal_difference, or they are equal on both
and A.goals_for ≥ B.goals_for; and `position` is the 1-based rank after this
sort. -/
theorem c1_league_table_sorted (ms : List Match) :
    (league_table ms).Pairwise claim_order ∧
      (league_table ms).map (fun r => r.position) =
        List.range' 1 (league_table ms).length := by
  constructor
  · have hs : ((table_rows_unsorted ms).insertionSort row_le).Pairwise row_le :=
      List.sorted_insertionSort row_le (table_rows_unsorted ms)
    have hc : ((table_rows_unsorted ms).insertionSort row_le).Pairwise claim_order :=
      hs.imp (fun {a b} h => (row_le_iff_claim_order a b).mp h)
    exact set_positions_pairwise (fun a b i j h => h) 1 hc
  · rw [league_table, set_positions_map_position, set_positions_length]

/-! ## C9: full ties are listed alphabetically -/

/-- Two table rows tied on all three ranking keys. -/
def tied (a b : TeamRow) : Prop :=
  a.points = b.points ∧ a.goal_difference = b.goal_difference ∧ a.goals_for = b.goals_for

/-- C9: any two teams tied on points, goal difference and goals for appear in
alphabetical order of team name, because the team list is enumerated
pre-sorted alphabetically and the ranking sort is stable. -/
theorem c9_ties_alphabetical (ms : List Match) :
    (league_table ms).Pairwise (fun a b => tied a b → str_lt a.team b.team) := by
  have hteams : (teams_of ms).Pairwise str_lt := by
    have hsorted : (teams_of ms).Pairwise str_le :=
      List.sorted_insertionSort str_le _
    have hnodup : (teams_of ms).Nodup :=
      (List.perm_insertionSort str_le
          ((ms.map (fun m => m.home_team) ++ ms.map (fun m => m.away_team)).dedup)).symm.nodup
        (List.nodup_dedup (ms.map (fun m => m.home_team) ++ ms.map (fun m => m.away_team)))
    exact (hsorted.and hnodup).imp (fun {a b} h => str_lt_of_le_of_ne h.1 h.2)
  have hrows : (table_rows_unsorted ms).Pairwise
      (fun a b => tied a b → str_lt a.team b.team) := by
    rw [table_rows_unsorted, List.pairwise_map]
    exact hteams.imp (fun {a b} h => fun _ => h)
  have hsortrows : ((table_rows_unsorted ms).insertionSort row_le).Pairwise
      (fun a b => tied a b → str_lt a.team b.team) := by
    refine insertionSort_pairwise (fun a b hr ht => absurd ?_ hr) hrows
    rw [row_le_iff]
    rcases ht with ⟨h1, h2, h3⟩
    omega
  exact set_positions_pairwise (fun a b i j h => h) 1 hsortrows

/-- A 1-1 draw: both teams end fully tied on points, goal difference and
goals for. -/
def c9_match : Match :=
  { match_id := 1, season := "2025-26", date := "2025-08-01",
    home_team := "AAA", away_team := "BBB",
    home_goals := 1, away_goals := 1, result := MRes.D, referee := "R",
    home_shots := 0, away_shots := 0,
    home_shots_on_target := 0, away_shots_on_target := 0,
    home_reds := 0, away_reds := 0,
    total_goals := 2, total_fouls := 0, total_cards := 0 }

/-- Witness for C9: in the table of a single 1-1 draw the two tied teams
appear alphabetically. -/
theorem c9_ties_alphabetical_witness : str_lt "AAA" "BBB" :=
  (List.pairwise_cons.mp (c9_ties_alphabetical [c9_match])).1 _
    (List.mem_singleton.mpr rfl) ⟨by decide, by decide, by decide⟩

/-! ## C4: cumulative points are non-decreasing and end at the table total -/

theorem running_sums_chain : ∀ (a : Nat) (l : List Nat),
    List.Chain' (· ≤ ·) (running_sums a l)
  | _, [] => List.chain'_nil
  | _, [_] => by simp [running_sums]
  | a, p :: q :: t => by
    have ih := running_sums_chain (a + p) (q :: t)
    simp only [running_sums] at ih ⊢
    exact (List.chain'_cons.mpr ⟨by omega, ih⟩)

theorem running_sums_getLastD : ∀ (a : Nat) (l : List Nat),
    (running_sums a l).getLastD a = a + l.sum
  | _, [] => by simp [running_sums]
  | a, p :: t => by
    have ih := running_sums_getLastD (a + p) t
    simp only [running_sums, List.getLastD_cons, List.sum_cons]
    omega

theorem map_home_pts_sum : ∀ l : List Match, (l.map home_pts).sum =
    3 * (l.filter (fun m => decide (m.result = MRes.H))).length +
      (l.filter (fun m => decide (m.result = MRes.D))).length
  | [] => rfl
  | m :: t => by
    have ih := map_home_pts_sum t
    cases hr : m.result <;>
      simp [home_pts, hr, List.filter_cons, ih] <;> omega

theorem map_away_pts_sum : ∀ l : List Match, (l.map away_pts).sum =
    3 * (l.filter (fun m => decide (m.result = MRes.A))).length +
      (l.filter (fun m => decide (m.result = MRes.D))).length
  | [] => rfl
  | m :: t => by
    have ih := map_away_pts_sum t
    cases hr : m.result <;>
      simp [away_pts, hr, List.filter_cons, ih] <;> omega

/-- The cumulative series' values are exactly the running sums of the points list. -/
theorem cumulative_points_snd (ms : List Match) (t : String) :
    (cumulative_points ms t).map Prod.snd = running_sums 0 (team_pts_list ms t) := by
  rw [cumulative_points, List.map_map]
  have : (Prod.snd ∘ fun p : Nat × Nat => (p.1 + 1, p.2)) = Prod.snd := rfl
  rw [this, List.enum_map_snd]

/-- The final cumulative value is the team's points total from `build_team_stats`. -/
theorem cumulative_final_eq_points (ms : List Match) (t : String) :
    ((cumulative_points ms t).map Prod.snd).getLastD 0 = (build_team_stats ms t).points := by
  rw [cumulative_points_snd, running_sums_getLastD]
  have hperm : ((team_pair_list ms t).insertionSort pair_date_le).Perm (team_pair_list ms t) :=
    List.perm_insertionSort pair_date_le (team_pair_list ms t)
  have hsum : (team_pts_list ms t).sum = ((team_pair_list ms t).map Prod.snd).sum := by
    rw [team_pts_list]
    exact (hperm.map Prod.snd).sum_eq
  have hcs : (current_sorted ms).Perm ms := List.perm_insertionSort date_le ms
  have hsum2 : ((team_pair_list ms t).map Prod.snd).sum =
      (((ms.filter (fun m => decide (m.home_team = t))).map home_pts).sum +
        ((ms.filter (fun m => decide (m.away_team = t))).map away_pts).sum) := by
    rw [team_pair_list, List.map_append, List.map_map, List.map_map]
    have h1 : (Prod.snd ∘ fun m : Match => (m.date, home_pts m)) = home_pts := rfl
    have h2 : (Prod.snd ∘ fun m : Match => (m.date, away_pts m)) = away_pts := rfl
    rw [h1, h2, List.sum_append,
      ((hcs.filter (fun m => decide (m.home_team = t))).map home_pts).sum_eq,
      ((hcs.filter (fun m => decide (m.away_team = t))).map away_pts).sum_eq]
  rw [hsum, hsum2, map_home_pts_sum, map_away_pts_sum]
  simp only [build_team_stats]
  omega

/-- C4: for every team, the cumulative-points series is non-decreasing, its
final value equals that team's points from the standings computation, and the
final value of the series of every league-table row's team equals that row's
points. -/
theorem c4_cumulative_points (ms : List Match) (t : String) :
    List.Chain' (· ≤ ·) ((cumulative_points ms t).map Prod.snd) ∧
      ((cumulative_points ms t).map Prod.snd).getLastD 0 = (build_team_stats ms t).points ∧
      (league_table ms).map
          (fun r => ((cumulative_points ms r.team).map Prod.snd).getLastD 0) =
        (league_table ms).map (fun r => r.points) := by
  refine ⟨?_, cumulative_final_eq_points ms t, ?_⟩
  · rw [cumulative_points_snd]
    exact running_sums_chain 0 (team_pts_list ms t)
  · refine List.map_congr_left ?_
    intro r hr
    rcases mem_set_positions hr with ⟨y, hy, j, rfl⟩
    rcases List.mem_map.mp ((List.mem_insertionSort row_le).mp hy) with ⟨tm, _, rfl⟩
    exact cumulative_final_eq_points ms tm

/-! ## Cross-source xG analytics (`xg_table`, `xg_vs_actual`, `shot_quality`) -/

/-- One row of the expected-goals team dataset (`xg_teams.csv`). -/
structure XGTeam where
  team : String
  xg_for : ℚ
  xg_against : ℚ
  goals_for : Nat
  goals_against : Nat
deriving DecidableEq

/-- One emitted `xg_table` row. -/
structure XGTableRow where
  team : String
  xg_for : ℚ
  xg_against : ℚ
  goals_for : Nat
  goals_against : Nat
  xg_difference : ℚ
  actual_points : Nat
deriving DecidableEq

/-- One emitted `xg_vs_actual` scatter row. -/
structure XGScatterRow where
  team : String
  total_xg : ℚ
  actual_goals : Nat
  difference : ℚ
deriving DecidableEq

/-- One emitted `shot_quality` row. -/
structure SQRow where
  team : String
  total_shots : Nat
  xg_per_shot : ℚ
deriving DecidableEq

/-- `next((t for t in table_rows if t['team'] == team), None)` — and also the
`for tr in table_rows: ... break` loop that looks up `actual_points`. -/
def find_table_row (table : List TeamRow) (t : String) : Option TeamRow :=
  table.find? (fun tr => decide (tr.team = t))

/-- Build one `xg_table` row: xG values are rounded on read (`safe_float`),
and `actual_points` falls back to `0` when the team has no league-table row. -/
def mk_xg_table_row (table : List TeamRow) (x : XGTeam) : XGTableRow :=
  let xg_for := safe_float 2 x.xg_for
  let xg_against := safe_float 2 x.xg_against
  { team := x.team
    xg_for := xg_for
    xg_against := xg_against
    goals_for := x.goals_for
    goals_against := x.goals_against
    xg_difference := safe_float 2 (xg_for - xg_against)
    actual_points := ((find_table_row table x.team).map (fun tr => tr.points)).getD 0 }

/-- Descending comparison on `xg_difference` used by
`xg_table_rows.sort(key=lambda x: -x['xg_difference'])`. -/
def xg_diff_ge (a b : XGTableRow) : Prop :=
  decide (b.xg_difference ≤ a.xg_difference) = true

instance : DecidableRel xg_diff_ge := fun _ _ => inferInstanceAs (Decidable (_ = true))

/-- The `xg_table` section (requires xG data to be present). -/
def xg_table_sec (xgs : List XGTeam) (table : List TeamRow) : List XGTableRow :=
  (xgs.map (mk_xg_table_row table)).insertionSort xg_diff_ge

/-- The `xg_vs_actual` scatter section (appended in dataset order, unsorted). -/
def xg_vs_actual_sec (xgs : List XGTeam) : List XGScatterRow :=
  xgs.map (fun x =>
    let xg_for := safe_float 2 x.xg_for
    { team := x.team
      total_xg := xg_for
      actual_goals := x.goals_for
      difference := safe_float 2 ((x.goals_for : ℚ) - xg_for) })

/-- The unsorted `shot_quality` rows: a row is emitted only when the team has
a league-table row with a positive shot count. -/
def shot_quality_rows (xgs : List XGTeam) (table : List TeamRow) : List SQRow :=
  xgs.filterMap (fun x =>
    match find_table_row table x.team with
    | none => none
    | some tr =>
      if tr.total_shots > 0 then
        some { team := x.team
               total_shots := tr.total_shots
               xg_per_shot := safe_float 3 (safe_float 2 x.xg_for / (tr.total_shots : ℚ)) }
      else none)

/-- Descending comparison on `xg_per_shot`. -/
def sq_ge (a b : SQRow) : Prop := decide (b.xg_per_shot ≤ a.xg_per_shot) = true

instance : DecidableRel sq_ge := fun _ _ => inferInstanceAs (Decidable (_ = true))

/-- The `shot_quality` section. -/
def shot_quality_sec (xgs : List XGTeam) (table : List TeamRow) : List SQRow :=
  (shot_quality_rows xgs table).insertionSort sq_ge

/-! ## C10: xG rows for teams absent from the league table -/

/-- C10: every expected-goals team row whose team is not in the league table
still yields an `xg_table` row for that team, with `actual_points = 0`. -/
theorem c10_xg_unknown_team (ms : List Match) (xgs : List XGTeam) :
    ∀ x ∈ xgs, x.team ∉ (league_table ms).map (fun r => r.team) →
      ∃ row ∈ xg_table_sec xgs (league_table ms),
        row.team = x.team ∧ row.actual_points = 0 := by
  intro x hx hnot
  refine ⟨mk_xg_table_row (league_table ms) x, ?_, rfl, ?_⟩
  · exact (List.mem_insertionSort xg_diff_ge).mpr
      (List.mem_map_of_mem (mk_xg_table_row (league_table ms)) hx)
  · have hfind : find_table_row (league_table ms) x.team = none := by
      rw [find_table_row, List.find?_eq_none]
      intro tr htr
      simp only [decide_eq_true_eq]
      intro h
      exact hnot (h ▸ List.mem_map_of_mem (fun r => r.team) htr)
    simp [mk_xg_table_row, hfind]

/-- Witness for C10 at a concrete input: an xG row for a team with no matches. -/
theorem c10_xg_unknown_team_witness :
    ∃ row ∈ xg_table_sec [⟨"Arsenal", 10, 5, 20, 10⟩] (league_table []),
      row.team = "Arsenal" ∧ row.actual_points = 0 :=
  c10_xg_unknown_team [] [⟨"Arsenal", 10, 5, 20, 10⟩] ⟨"Arsenal", 10, 5, 20, 10⟩
    (by simp) (by simp [league_table, table_rows_unsorted, teams_of, set_positions])

/-! ## C5: shot accuracy and xG-per-shot guards -/

theorem build_shot_accuracy (ms : List Match) (t : String) :
    (build_team_stats ms t).shot_accuracy =
      shot_accuracy_calc (build_team_stats ms t).total_shots_on_target
        (build_team_stats ms t).total_shots := rfl

theorem shot_accuracy_calc_eq (sot shots : Nat) :
    shot_accuracy_calc sot shots =
      if shots = 0 then 0 else safe_float 2 ((sot : ℚ) / (shots : ℚ) * 100) := by
  by_cases h : shots = 0
  · simp [shot_accuracy_calc, h]
  · simp [shot_accuracy_calc, h, Nat.pos_of_ne_zero h]

/-- A single match in which the home side takes one shot, none on target. -/
def c5_match : Match :=
  { match_id := 1, season := "2025-26", date := "2025-08-01",
    home_team := "AAA", away_team := "BBB",
    home_goals := 1, away_goals := 0, result := MRes.H, referee := "R",
    home_shots := 1, away_shots := 0,
    home_shots_on_target := 0, away_shots_on_target := 0,
    home_reds := 0, away_reds := 0,
    total_goals := 1, total_fouls := 0, total_cards := 0 }

/-- C5 counterexample: a team with a nonzero shot denominator but zero shots
on target has shot accuracy 0, refuting "0 exactly when the denominator is 0". -/
theorem c5_counterexample :
    (build_team_stats [c5_match] "AAA").total_shots = 1 ∧
      (build_team_stats [c5_match] "AAA").shot_accuracy = 0 := by
  refine ⟨by decide, ?_⟩
  have h1 : (build_team_stats [c5_match] "AAA").total_shots_on_target = 0 := by decide
  have h2 : (build_team_stats [c5_match] "AAA").total_shots = 1 := by decide
  rw [build_shot_accuracy, h1, h2]
  simp [shot_accuracy_calc, safe_float]

/-- C5 amended: shot accuracy is 0 whenever the shot denominator is 0 and is
otherwise the rounded direct computation (within 1/100 of it); `shot_quality`
rows exist only for teams with a positive shot denominator and carry the
rounded direct xG-per-shot ratio (within 1/1000 of it); all values are
totally defined (no division fault). -/
theorem c5_shot_ratios (ms : List Match) (t : String)
    (xgs : List XGTeam) (table : List TeamRow) :
    ((build_team_stats ms t).shot_accuracy =
      if (build_team_stats ms t).total_shots = 0 then 0
      else safe_float 2 (((build_team_stats ms t).total_shots_on_target : ℚ) /
        ((build_team_stats ms t).total_shots : ℚ) * 100)) ∧
    |(build_team_stats ms t).shot_accuracy -
      (if (build_team_stats ms t).total_shots = 0 then 0
       else ((build_team_stats ms t).total_shots_on_target : ℚ) /
        ((build_team_stats ms t).total_shots : ℚ) * 100)| ≤ 1 / 100 ∧
    (∀ r ∈ shot_quality_sec xgs table, 0 < r.total_shots ∧
      ∃ x ∈ xgs, ∃ tr ∈ table, r.team = x.team ∧ r.total_shots = tr.total_shots ∧
        0 < tr.total_shots ∧
        r.xg_per_shot = safe_float 3 (safe_float 2 x.xg_for / (tr.total_shots : ℚ)) ∧
        |r.xg_per_shot - safe_float 2 x.xg_for / (tr.total_shots : ℚ)| ≤ 1 / 1000) := by
  refine ⟨?_, ?_, ?_⟩
  · rw [build_shot_accuracy, shot_accuracy_calc_eq]
  · rw [build_shot_accuracy, shot_accuracy_calc_eq]
    by_cases h : (build_team_stats ms t).total_shots = 0
    · simp [h]
    · simp only [h, if_neg]
      calc |safe_float 2 (((build_team_stats ms t).total_shots_on_target : ℚ) /
            ((build_team_stats ms t).total_shots : ℚ) * 100) -
            ((build_team_stats ms t).total_shots_on_target : ℚ) /
            ((build_team_stats ms t).total_shots : ℚ) * 100|
          ≤ 1 / (2 * (10 : ℚ) ^ 2) := abs_safe_float_sub_le 2 _
        _ ≤ 1 / 100 := by norm_num
  · intro r hr
    have hr' : r ∈ shot_quality_rows xgs table :=
      (List.mem_insertionSort sq_ge).mp hr
    rcases List.mem_filterMap.mp hr' with ⟨x, hx, hfx⟩
    rcases hfind : find_table_row table x.team with _ | tr
    · rw [hfind] at hfx
      exact absurd hfx (by simp)
    · rw [hfind] at hfx
      dsimp only at hfx
      by_cases hshots : tr.total_shots > 0
      · rw [if_pos hshots] at hfx
        have htr : tr ∈ table := List.mem_of_find?_eq_some hfind
        have heq := Option.some_inj.mp hfx
        subst heq
        refine ⟨hshots, x, hx, tr, htr, rfl, rfl, hshots, rfl, ?_⟩
        calc |safe_float 3 (safe_float 2 x.xg_for / (tr.total_shots : ℚ)) -
              safe_float 2 x.xg_for / (tr.total_shots : ℚ)|
            ≤ 1 / (2 * (10 : ℚ) ^ 3) := abs_safe_float_sub_le 3 _
          _ ≤ 1 / 1000 := by norm_num
      · rw [if_neg hshots] at hfx
        exact absurd hfx (by simp)

/-- A hand-written table row with one total shot, for the C5 witness input. -/
def c5_table_row : TeamRow :=
  { team := "AAA", played := 1, won := 0, drawn := 1, lost := 0,
    goals_for := 0, goals_against := 0, goal_difference := 0, points := 1,
    home_won := 0, home_drawn := 1, home_lost := 0,
    away_won := 0, away_drawn := 0, away_lost := 0,
    clean_sheets := 1, total_shots := 1, total_shots_on_target := 0,
    shot_accuracy := 0, goals_per_game := 0, position := 1 }

/-- The `xg_teams.csv` row used by the C5 and C10 witnesses. -/
def c5_xg_row : XGTeam := ⟨"AAA", 10, 5, 20, 10⟩

/-- The `shot_quality` row the C5 witness input produces. -/
def c5_sq_row : SQRow :=
  { team := "AAA", total_shots := 1,
    xg_per_shot := safe_float 3 (safe_float 2 c5_xg_row.xg_for / (c5_table_row.total_shots : ℚ)) }

/-- Witness for C5's amended statement at a concrete input. -/
theorem c5_shot_ratios_witness : 0 < c5_sq_row.total_shots := by
  have hmem : c5_sq_row ∈ shot_quality_sec [c5_xg_row] [c5_table_row] := by
    have hlist : shot_quality_sec [c5_xg_row] [c5_table_row] = [c5_sq_row] := rfl
    rw [hlist]
    exact List.mem_singleton.mpr rfl
  exact ((c5_shot_ratios [c5_match] "AAA" [c5_xg_row] [c5_table_row]).2.2
    c5_sq_row hmem).1

/-! ## Name reconciliation (`strip_accents`, the xG lookup indexes, `enrich`) -/

/-- Per-character model of `unicodedata.NFKD` + combining-mark removal,
restricted to precomposed Latin letters (the only characters the player names
contain); every other character maps to itself. -/
def accent_map (c : Char) : Char :=
  match c with
  | 'á' | 'à' | 'â' | 'ä' | 'ã' | 'å' => 'a'
  | 'é' | 'è' | 'ê' | 'ë' => 'e'
  | 'í' | 'ì' | 'î' | 'ï' => 'i'
  | 'ó' | 'ò' | 'ô' | 'ö' | 'õ' | 'ø' => 'o'
  | 'ú' | 'ù' | 'û' | 'ü' => 'u'
  | 'ý' | 'ÿ' => 'y'
  | 'ñ' | 'ń' => 'n'
  | 'ç' | 'ć' | 'č' => 'c'
  | 'š' | 'ş' => 's'
  | 'ž' => 'z'
  | 'Á' | 'À' | 'Â' | 'Ä' | 'Ã' | 'Å' => 'A'
  | 'É' | 'È' | 'Ê' | 'Ë' => 'E'
  | 'Í' | 'Ì' | 'Î' | 'Ï' => 'I'
  | 'Ó' | 'Ò' | 'Ô' | 'Ö' | 'Õ' | 'Ø' => 'O'
  | 'Ú' | 'Ù' | 'Û' | 'Ü' => 'U'
  | 'Ñ' => 'N'
  | 'Ç' => 'C'
  | 'Š' => 'S'
  | 'Ž' => 'Z'
  | c => c

/-- `strip_accents(s)` on the character list of a string. -/
def strip_accents (l : List Char) : List Char := l.map accent_map

/-- `.lower()`. -/
def lc_lower (l : List Char) : List Char := l.map Char.toLower

/-- `strip_accents(name).lower()` as a character list. -/
def norm_name (s : String) : List Char := lc_lower (strip_accents s.data)

/-- Split a character list at every character satisfying `p` (Python
`str.split(sep)`: empty pieces are kept). -/
def split_aux (p : Char → Bool) : List Char → List Char → List (List Char)
  | [], acc => [acc.reverse]
  | c :: rest, acc =>
    if p c then acc.reverse :: split_aux p rest [] else split_aux p rest (c :: acc)

/-- Python `s.split(sep)`. -/
def lc_split (p : Char → Bool) (l : List Char) : List (List Char) := split_aux p l []

/-- Python `s.split()` (split on whitespace, dropping empty pieces). -/
def lc_words (l : List Char) : List (List Char) :=
  (lc_split Char.isWhitespace l).filter (fun w => decide (w ≠ []))

/-- Python `s.strip()`. -/
def lc_strip (l : List Char) : List Char :=
  ((l.dropWhile Char.isWhitespace).reverse.dropWhile Char.isWhitespace).reverse

/-- Python `s.rstrip('.')`. -/
def lc_rstrip_dot (l : List Char) : List Char :=
  (l.reverse.dropWhile (fun c => decide (c = '.'))).reverse

/-- Is `n` a prefix of `h`? (building block of substring containment). -/
def lc_pref : List Char → List Char → Bool
  | [], _ => true
  | _ :: _, [] => false
  | a :: as, b :: bs => decide (a = b) && lc_pref as bs

/-- Python `needle in haystack` substring containment. -/
def lc_sub (n : List Char) : List Char → Bool
  | [] => n.isEmpty
  | c :: rest => lc_pref n (c :: rest) || lc_sub n rest

/-- One fantasy player record (`players.csv` row), restricted to the columns
`02_transform.py` reads. -/
structure PlayerRecord where
  player_name : String
  full_name : String
  team : String
  position : String
  minutes : Nat
  goals : Nat
  assists : Nat
  yellow_cards : Nat
  red_cards : Nat
  price : ℚ
deriving DecidableEq

/-- One expected-goals player record (`xg_players.csv` row).  The `team`
field may be comma-separated for mid-season transfers. -/
structure XGPlayer where
  player_name : String
  team : String
  position : String
  minutes : Nat
  goals : Nat
  assists : Nat
  xg : ℚ
  xa : ℚ
  shots : Nat
  key_passes : Nat
  npxg : ℚ
deriving DecidableEq

/-- The value dict stored in the xG lookup indexes. -/
structure XGData where
  xg : ℚ
  xa : ℚ
  shots : Nat
  key_passes : Nat
  npxg : ℚ
deriving DecidableEq

/-- The `data` dict built for one xG record. -/
def xg_data_of (xr : XGPlayer) : XGData :=
  { xg := safe_float 2 xr.xg
    xa := safe_float 2 xr.xa
    shots := xr.shots
    key_passes := xr.key_passes
    npxg := safe_float 2 xr.npxg }

/-- `teams = [t.strip() for t in teams_raw.split(',')]`. -/
def record_teams (xr : XGPlayer) : List String :=
  (lc_split (fun c => decide (c = ',')) xr.team.data).map (fun l => String.mk (lc_strip l))

/-- `parts = name_norm.split(); last = parts[-1] if parts else name_norm`. -/
def last_norm (name : String) : List Char :=
  (lc_words (norm_name name)).getLastD (norm_name name)

/-- `xg_players_df.dropna(subset=['player_name'])`: a missing name reads back
as the empty string through `safe_str`. -/
def dropna_names (xps : List XGPlayer) : List XGPlayer :=
  xps.filter (fun xr => decide (xr.player_name ≠ ""))

/-- The three lookup indexes `xg_by_name`, `xg_by_last`, `xg_by_team`.
Python dicts overwrite on duplicate keys (`dget` below takes the last
matching entry) and the per-team candidate lists append in iteration order. -/
structure XGIndex where
  by_name : List ((String × String) × XGData)
  by_last : List ((String × String) × XGData)
  by_team : List (String × (List Char × XGData))
deriving DecidableEq

def empty_index : XGIndex := ⟨[], [], []⟩

def index_entries_name (xr : XGPlayer) : List ((String × String) × XGData) :=
  (record_teams xr).map (fun tm => ((xr.player_name, tm), xg_data_of xr))

def index_entries_last (xr : XGPlayer) : List ((String × String) × XGData) :=
  (record_teams xr).map (fun tm => ((String.mk (last_norm xr.player_name), tm), xg_data_of xr))

def index_entries_team (xr : XGPlayer) : List (String × (List Char × XGData)) :=
  (record_teams xr).map (fun tm => (tm, (norm_name xr.player_name, xg_data_of xr)))

/-- The index-building loop over (name-bearing) xG player rows. -/
def build_index : List XGPlayer → XGIndex
  | [] => empty_index
  | xr :: rest =>
    let idx := build_index rest
    { by_name := index_entries_name xr ++ idx.by_name
      by_last := index_entries_last xr ++ idx.by_last
      by_team := index_entries_team xr ++ idx.by_team }

/-- Python `dict.get`: the last write to a key wins. -/
def dget (l : List ((String × String) × XGData)) (k : String × String) : Option XGData :=
  ((l.filter (fun e => decide (e.1 = k))).getLast?).map Prod.snd

/-- `xg_by_team.get(team, [])`: the team's candidate list in insertion order. -/
def candidates (idx : XGIndex) (tm : String) : List (List Char × XGData) :=
  (idx.by_team.filter (fun e => decide (e.1 = tm))).map Prod.snd

/-- Strategy 1: exact match on `(short_name, team)`. -/
def strat1 (idx : XGIndex) (pname tm : String) : Option XGData :=
  dget idx.by_name (pname, tm)

/-- Strategy 2: exact match on `(full_name, team)` — skipped when the full
name is empty (`if fname:`). -/
def strat2 (idx : XGIndex) (fname tm : String) : Option XGData :=
  if fname = "" then none else dget idx.by_name (fname, tm)

/-- Strategy 3: normalized short name against the last-name index. -/
def strat3 (idx : XGIndex) (pname tm : String) : Option XGData :=
  dget idx.by_last (String.mk (norm_name pname), tm)

/-- The loop inside strategy 4: try each candidate token as a last name. -/
def try_parts (idx : XGIndex) (tm : String) : List (List Char) → Option XGData
  | [] => none
  | part :: rest =>
    match dget idx.by_last (String.mk part, tm) with
    | some d => some d
    | none => try_parts idx tm rest

/-- `[strip_accents(p).lower() for p in pname.split('.') if len(p) > 2]`. -/
def dot_parts (pname : String) : List (List Char) :=
  ((lc_split (fun c => decide (c = '.')) pname.data).filter
    (fun p => decide (p.length > 2))).map (fun p => lc_lower (strip_accents p))

/-- Strategy 4: dot-split fallback, only when the name contains a dot. -/
def strat4 (idx : XGIndex) (pname tm : String) : Option XGData :=
  if pname.data.contains '.' then try_parts idx tm (dot_parts pname) else none

/-- Strategy 5: substring containment within the team's candidates
(`clean = pname_norm.rstrip('.')`). -/
def strat5 (idx : XGIndex) (pname tm : String) : Option XGData :=
  ((candidates idx tm).find? (fun c => lc_sub (lc_rstrip_dot (norm_name pname)) c.1)).map
    Prod.snd

/-- `enrich(row)` from `02_transform.py`: the early-return chain of the five
matching strategies.  `none` models the empty enrichment dict `{}`. -/
def enrich (idx : XGIndex) (pname fname tm : String) : Option XGData :=
  match strat1 idx pname tm with
  | some d => some d
  | none =>
    match strat2 idx fname tm with
    | some d => some d
    | none =>
      match strat3 idx pname tm with
      | some d => some d
      | none =>
        match strat4 idx pname tm with
        | some d => some d
        | none => strat5 idx pname tm

/-- First hit of a strategy list (the spec's priority-order reading). -/
def first_hit : List (Option XGData) → Option XGData
  | [] => none
  | o :: rest =>
    match o with
    | some d => some d
    | none => first_hit rest

/-- The index restricted to the entries of one team: matching never consults
entries outside the player's team. -/
def restrict_index (idx : XGIndex) (tm : String) : XGIndex :=
  { by_name := idx.by_name.filter (fun e => decide (e.1.2 = tm))
    by_last := idx.by_last.filter (fun e => decide (e.1.2 = tm))
    by_team := idx.by_team.filter (fun e => decide (e.1 = tm)) }

theorem dget_team_filter (l : List ((String × String) × XGData)) (n tm : String) :
    dget (l.filter (fun e => decide (e.1.2 = tm))) (n, tm) = dget l (n, tm) := by
  rw [dget, dget, List.filter_filter]
  have : l.filter (fun e => decide (e.1 = (n, tm)) && decide (e.1.2 = tm)) =
      l.filter (fun e => decide (e.1 = (n, tm))) := by
    refine List.filter_congr ?_
    intro e _
    by_cases hk : e.1 = (n, tm)
    · simp [hk]
    · simp [hk]
  rw [this]

theorem candidates_restrict (idx : XGIndex) (tm : String) :
    candidates (restrict_index idx tm) tm = candidates idx tm := by
  rw [candidates, candidates, restrict_index]
  rw [List.filter_filter]
  congr 1
  refine List.filter_congr ?_
  intro e _
  by_cases hk : e.1 = tm
  · simp [hk]
  · simp [hk]

theorem try_parts_restrict (idx : XGIndex) (tm : String) :
    ∀ parts, try_parts (restrict_index idx tm) tm parts = try_parts idx tm parts
  | [] => rfl
  | part :: rest => by
    rw [try_parts, try_parts]
    rw [show (restrict_index idx tm).by_last =
      idx.by_last.filter (fun e => decide (e.1.2 = tm)) from rfl]
    rw [dget_team_filter, try_parts_restrict idx tm rest]

theorem try_parts_empty (tm : String) :
    ∀ parts, try_parts empty_index tm parts = none
  | [] => rfl
  | _ :: rest => by
    rw [try_parts]
    rw [show dget empty_index.by_last .. = none from rfl]
    exact try_parts_empty tm rest

theorem enrich_empty_index (p f tm : String) : enrich empty_index p f tm = none := by
  have h2 : strat2 empty_index f tm = none := by
    rw [strat2]
    split <;> rfl
  have h4 : strat4 empty_index p tm = none := by
    rw [strat4]
    split
    · exact try_parts_empty tm (dot_parts p)
    · rfl
  rw [enrich]
  rw [show strat1 empty_index p tm = none from rfl, h2,
    show strat3 empty_index p tm = none from rfl, h4]
  rfl

theorem mem_build_index_name : ∀ (xps : List XGPlayer) (x : XGPlayer), x ∈ xps →
    ∀ tm ∈ record_teams x, ((x.player_name, tm), xg_data_of x) ∈ (build_index xps).by_name
  | [], x, hx => absurd hx (List.not_mem_nil x)
  | y :: rest, x, hx => by
    intro tm htm
    rcases List.mem_cons.mp hx with rfl | hx
    · exact List.mem_append_left _
        (List.mem_map_of_mem (fun tm => ((x.player_name, tm), xg_data_of x)) htm)
    · exact List.mem_append_right _ (mem_build_index_name rest x hx tm htm)

/-- The record used to check the Haaland example. -/
def haaland_xg : XGPlayer :=
  { player_name := "Erling Haaland", team := "Manchester City", position := "FWD",
    minutes := 900, goals := 10, assists := 2,
    xg := 9, xa := 1, shots := 50, key_passes := 10, npxg := 8 }

/-- The xG lookup index built from the single Haaland record. -/
def haaland_index : XGIndex := build_index (dropna_names [haaland_xg])

/-- A traded player whose xG record carries a comma-separated team field. -/
def traded_xg : XGPlayer :=
  { player_name := "Traded Player", team := "Arsenal, Chelsea", position := "MID",
    minutes := 500, goals := 3, assists := 4,
    xg := 2, xa := 3, shots := 20, key_passes := 15, npxg := 2 }

/-- C6: `enrich` tries the five team-scoped strategies in fixed priority
order returning the first hit; entries of comma-separated-team records are
indexed under every constituent team; no match yields the empty enrichment
(never an exception); and `enrich("Haaland","Manchester City")` hits the
record keyed `("Erling Haaland","Manchester City")` via the last-name
fallback (strategies 1 and 2 miss, strategy 3 hits). -/
theorem c6_enrich_matching (idx : XGIndex) (p f tm : String) (xps : List XGPlayer) :
    (enrich idx p f tm =
      first_hit [strat1 idx p tm, strat2 idx f tm, strat3 idx p tm,
        strat4 idx p tm, strat5 idx p tm]) ∧
    enrich (restrict_index idx tm) p f tm = enrich idx p f tm ∧
    (∀ x ∈ xps, ∀ t2 ∈ record_teams x,
      ((x.player_name, t2), xg_data_of x) ∈ (build_index xps).by_name) ∧
    enrich empty_index p f tm = none ∧
    enrich haaland_index "Haaland" "" "Manchester City" = some (xg_data_of haaland_xg) ∧
    strat1 haaland_index "Haaland" "Manchester City" = none ∧
    strat2 haaland_index "" "Manchester City" = none ∧
    strat3 haaland_index "Haaland" "Manchester City" = some (xg_data_of haaland_xg) ∧
    enrich haaland_index "Nobody" "" "Arsenal" = none := by
  refine ⟨?_, ?_, fun x hx t2 ht2 => mem_build_index_name xps x hx t2 ht2,
    enrich_empty_index p f tm, rfl, rfl, rfl, rfl, rfl⟩
  · rw [enrich]
    cases strat1 idx p tm
    · dsimp only [first_hit]
      cases strat2 idx f tm
      · dsimp only [first_hit]
        cases strat3 idx p tm
        · dsimp only [first_hit]
          cases strat4 idx p tm
          · dsimp only [first_hit]
            cases strat5 idx p tm <;> rfl
          · rfl
        · rfl
      · rfl
    · rfl
  · have h1 : strat1 (restrict_index idx tm) p tm = strat1 idx p tm :=
      dget_team_filter idx.by_name p tm
    have h2 : strat2 (restrict_index idx tm) f tm = strat2 idx f tm := by
      rw [strat2, strat2]
      split
      · rfl
      · exact dget_team_filter idx.by_name f tm
    have h3 : strat3 (restrict_index idx tm) p tm = strat3 idx p tm :=
      dget_team_filter idx.by_last (String.mk (norm_name p)) tm
    have h4 : strat4 (restrict_index idx tm) p tm = strat4 idx p tm := by
      rw [strat4, strat4]
      split
      · exact try_parts_restrict idx tm (dot_parts p)
      · rfl
    have h5 : strat5 (restrict_index idx tm) p tm = strat5 idx p tm := by
      rw [strat5, strat5, candidates_restrict]
    rw [enrich, enrich, h1, h2, h3, h4, h5]

/-- Witness for C6 at concrete inputs: the traded player's entries appear
under both constituent teams. -/
theorem c6_enrich_matching_witness :
    ((("Traded Player", "Arsenal"), xg_data_of traded_xg) ∈
      (build_index [traded_xg]).by_name) ∧
    ((("Traded Player", "Chelsea"), xg_data_of traded_xg) ∈
      (build_index [traded_xg]).by_name) :=
  ⟨(c6_enrich_matching empty_index "" "" "" [traded_xg]).2.2.1 traded_xg
      (List.mem_singleton.mpr rfl) "Arsenal" (by decide),
    (c6_enrich_matching empty_index "" "" "" [traded_xg]).2.2.1 traded_xg
      (List.mem_singleton.mpr rfl) "Chelsea" (by decide)⟩

/-! ## Player leaderboards -/

/-- `per90(stat, minutes)`: 0 below 90 minutes, else the per-90 rate. -/
def per90 (stat minutes : Nat) : ℚ :=
  if minutes < 90 then 0 else safe_float 2 ((stat : ℚ) / (minutes : ℚ) * 90)

structure ScorerRow where
  rank : Nat
  player_name : String
  team : String
  position : String
  goals : Nat
  assists : Nat
  minutes : Nat
  goals_per_90 : ℚ
  price : ℚ
  xg : Option ℚ
  shots : Option Nat
deriving DecidableEq

structure AssistRow where
  rank : Nat
  player_name : String
  team : String
  position : String
  assists : Nat
  goals : Nat
  minutes : Nat
  assists_per_90 : ℚ
  xa : Option ℚ
  key_passes : Option Nat
  price : ℚ
deriving DecidableEq

structure IronManRow where
  player_name : String
  team : String
  position : String
  minutes : Nat
  games_equivalent : ℚ
  goals : Nat
  assists : Nat
deriving DecidableEq

structure PosRow where
  position : String
  total_goals : Nat
  total_assists : Nat
  player_count : Nat
  avg_goals : ℚ
deriving DecidableEq

structure ValueRow where
  rank : Nat
  player_name : String
  team : String
  position : String
  price : ℚ
  goals : Nat
  assists : Nat
  ga_per_million : ℚ
  minutes : Nat
deriving DecidableEq

structure CardsRow where
  player_name : String
  team : String
  position : String
  yellows : Nat
  reds : Nat
  total_cards : Nat
  minutes : Nat
deriving DecidableEq

structure Leaderboards where
  goal_scorers : List ScorerRow
  assist_leaders : List AssistRow
  iron_men : List IronManRow
  goals_by_position : List PosRow
  best_value : List ValueRow
  most_cards : List CardsRow
deriving DecidableEq

/-- Descending comparisons behind the `sort_values(..., ascending=False)`
calls (modelled stably; no claim depends on tie order within a leaderboard). -/
def p_goals_ge (a b : PlayerRecord) : Prop := decide (b.goals ≤ a.goals) = true

instance : DecidableRel p_goals_ge := fun _ _ => inferInstanceAs (Decidable (_ = true))

def p_assists_ge (a b : PlayerRecord) : Prop := decide (b.assists ≤ a.assists) = true

instance : DecidableRel p_assists_ge := fun _ _ => inferInstanceAs (Decidable (_ = true))

def p_minutes_ge (a b : PlayerRecord) : Prop := decide (b.minutes ≤ a.minutes) = true

instance : DecidableRel p_minutes_ge := fun _ _ => inferInstanceAs (Decidable (_ = true))

def p_cards_ge (a b : PlayerRecord) : Prop :=
  decide (b.yellow_cards + b.red_cards ≤ a.yellow_cards + a.red_cards) = true

instance : DecidableRel p_cards_ge := fun _ _ => inferInstanceAs (Decidable (_ = true))

/-- `(active['ga'] / active['price']).round(2)`. -/
def ga_per_million (p : PlayerRecord) : ℚ :=
  safe_float 2 (((p.goals + p.assists : Nat) : ℚ) / p.price)

def p_gapm_ge (a b : PlayerRecord) : Prop :=
  decide (ga_per_million b ≤ ga_per_million a) = true

instance : DecidableRel p_gapm_ge := fun _ _ => inferInstanceAs (Decidable (_ = true))

def iron_ge (a b : IronManRow) : Prop := decide (b.minutes ≤ a.minutes) = true

instance : DecidableRel iron_ge := fun _ _ => inferInstanceAs (Decidable (_ = true))

/-- Assign 1-based ranks while mapping (`"rank": len(list) + 1` as appended). -/
def with_ranks {α β : Type} (f : Nat → α → β) : Nat → List α → List β
  | _, [] => []
  | i, a :: rest => f i a :: with_ranks f (i + 1) rest

def mk_scorer (idx : XGIndex) (i : Nat) (p : PlayerRecord) : ScorerRow :=
  let xg_data := enrich idx p.player_name p.full_name p.team
  { rank := i, player_name := p.player_name, team := p.team, position := p.position,
    goals := p.goals, assists := p.assists, minutes := p.minutes,
    goals_per_90 := per90 p.goals p.minutes,
    price := safe_float 1 p.price,
    xg := xg_data.map (fun d => d.xg),
    shots := xg_data.map (fun d => d.shots) }

/-- Top-20 goal scorers, enriched with xG where a match is found. -/
def goal_scorers_board (idx : XGIndex) (fpl : List PlayerRecord) : List ScorerRow :=
  with_ranks (mk_scorer idx) 1
    (((fpl.filter (fun p => decide (p.goals > 0))).insertionSort p_goals_ge).take 20)

def mk_assist (idx : XGIndex) (i : Nat) (p : PlayerRecord) : AssistRow :=
  let xg_data := enrich idx p.player_name p.full_name p.team
  { rank := i, player_name := p.player_name, team := p.team, position := p.position,
    assists := p.assists, goals := p.goals, minutes := p.minutes,
    assists_per_90 := per90 p.assists p.minutes,
    xa := xg_data.map (fun d => d.xa),
    key_passes := xg_data.map (fun d => d.key_passes),
    price := safe_float 1 p.price }

/-- Top-15 assist leaders. -/
def assist_leaders_board (idx : XGIndex) (fpl : List PlayerRecord) : List AssistRow :=
  with_ranks (mk_assist idx) 1
    (((fpl.filter (fun p => decide (p.assists > 0))).insertionSort p_assists_ge).take 15)

/-- `sorted(fpl['team'].unique())` (also reused for squad values). -/
def fpl_teams (fpl : List PlayerRecord) : List String :=
  ((fpl.map (fun p => p.team)).dedup).insertionSort str_le

/-- Per team, the player with the most minutes (the `.iloc[0]` of the
descending sort; the team list comes from the data so the group is nonempty). -/
def iron_men_board (fpl : List PlayerRecord) : List IronManRow :=
  ((fpl_teams fpl).filterMap (fun tm =>
    ((fpl.filter (fun p => decide (p.team = tm))).insertionSort p_minutes_ge).head?.map
      (fun p =>
        { player_name := p.player_name, team := tm, position := p.position,
          minutes := p.minutes,
          games_equivalent := safe_float 1 ((p.minutes : ℚ) / 90),
          goals := p.goals, assists := p.assists }))).insertionSort iron_ge

def pos_row (fpl : List PlayerRecord) (pos : String) : PosRow :=
  let pos_df := fpl.filter (fun p => decide (p.position = pos))
  let g := (pos_df.map (fun p => p.goals)).sum
  let a := (pos_df.map (fun p => p.assists)).sum
  let count := (pos_df.filter (fun p => decide (p.minutes > 0))).length
  { position := pos, total_goals := g, total_assists := a, player_count := count,
    avg_goals := safe_float 2 (if count > 0 then (g : ℚ) / (count : ℚ) else 0) }

def goals_by_position_board (fpl : List PlayerRecord) : List PosRow :=
  (["FWD", "MID", "DEF", "GK"]).map (pos_row fpl)

def mk_value (i : Nat) (p : PlayerRecord) : ValueRow :=
  { rank := i, player_name := p.player_name, team := p.team, position := p.position,
    price := safe_float 1 p.price, goals := p.goals, assists := p.assists,
    ga_per_million := ga_per_million p, minutes := p.minutes }

/-- Best value: minutes ≥ 450 and positive price, top 15 by (g+a)/price. -/
def best_value_board (fpl : List PlayerRecord) : List ValueRow :=
  with_ranks mk_value 1
    (((fpl.filter (fun p => decide (p.minutes ≥ 450) && decide (p.price > 0))).insertionSort
      p_gapm_ge).take 15)

def mk_cards (p : PlayerRecord) : CardsRow :=
  { player_name := p.player_name, team := p.team, position := p.position,
    yellows := p.yellow_cards, reds := p.red_cards,
    total_cards := p.yellow_cards + p.red_cards, minutes := p.minutes }

/-- Disciplinary: players with at least one card, top 10 by total cards. -/
def most_cards_board (fpl : List PlayerRecord) : List CardsRow :=
  ((((fpl.filter (fun p => decide (p.yellow_cards + p.red_cards > 0))).insertionSort
    p_cards_ge).take 10).map mk_cards)

def build_leaderboards (idx : XGIndex) (fpl : List PlayerRecord) : Leaderboards :=
  { goal_scorers := goal_scorers_board idx fpl
    assist_leaders := assist_leaders_board idx fpl
    iron_men := iron_men_board fpl
    goals_by_position := goals_by_position_board fpl
    best_value := best_value_board fpl
    most_cards := most_cards_board fpl }

/-- The `player_leaderboards` output section: `None` iff the fantasy source
is absent (`has_fpl`); the xG index is empty when the xG source is absent. -/
def player_leaderboards_sec (fpl : Option (List PlayerRecord))
    (xgp : Option (List XGPlayer)) : Option Leaderboards :=
  match fpl with
  | none => none
  | some ps =>
    let idx := match xgp with
      | some l => build_index (dropna_names l)
      | none => empty_index
    some (build_leaderboards idx ps)

/-! ## Money vs points -/

structure MoneyBase where
  team : String
  squad_value : ℚ
  points : Nat
  played : Nat
  points_per_match : ℚ
deriving DecidableEq

structure MoneyRow where
  team : String
  squad_value : ℚ
  points : Nat
  played : Nat
  points_per_match : ℚ
  expected_points : ℚ
  over_under : ℚ
deriving DecidableEq

structure Regression where
  slope : ℚ
  intercept : ℚ
  r_squared : ℚ
deriving DecidableEq

structure MoneyVsPoints where
  teams : List MoneyRow
  regression : Regression
deriving DecidableEq

/-- `players_df.groupby('team')['price'].sum()` (groupby sorts its keys). -/
def squad_values (ps : List PlayerRecord) : List (String × ℚ) :=
  (fpl_teams ps).map (fun tm =>
    (tm, ((ps.filter (fun p => decide (p.team = tm))).map (fun p => p.price)).sum))

/-- The `money_rows` loop before the regression: teams without a league-table
row are skipped (`continue`). -/
def money_base (ps : List PlayerRecord) (table : List TeamRow) : List MoneyBase :=
  (squad_values ps).filterMap (fun sv =>
    match find_table_row table sv.1 with
    | none => none
    | some tr =>
      some { team := sv.1, squad_value := safe_float 1 sv.2,
             points := tr.points, played := tr.played,
             points_per_match :=
               safe_float 2 (if tr.played > 0 then (tr.points : ℚ) / (tr.played : ℚ) else 0) })

/-- The OLS fit from `02_transform.py` lines 660-689: returns the unrounded
`(slope, intercept, r_squared)`. -/
def lin_reg (vs ps : List ℚ) : ℚ × ℚ × ℚ :=
  let n : ℚ := (vs.length : ℚ)
  let mean_v := vs.sum / n
  let mean_p := ps.sum / n
  let cov := ((vs.zip ps).map (fun q => (q.1 - mean_v) * (q.2 - mean_p))).sum
  let var := (vs.map (fun v => (v - mean_v) ^ 2)).sum
  let slope := if var > 0 then cov / var else 0
  let intercept := mean_p - slope * mean_v
  let var_p := (ps.map (fun p => (p - mean_p) ^ 2)).sum
  let r2 := if var > 0 ∧ var_p > 0 then cov ^ 2 / (var * var_p) else 0
  (slope, intercept, r2)

/-- The sample mean, in the spec's vocabulary. -/
def reg_mean (l : List ℚ) : ℚ := l.sum / (l.length : ℚ)

/-- The (unnormalized) covariance, in the spec's vocabulary. -/
def reg_cov (vs ps : List ℚ) : ℚ :=
  ((vs.zip ps).map (fun q => (q.1 - reg_mean vs) * (q.2 - reg_mean ps))).sum

/-- The (unnormalized) variance, in the spec's vocabulary. -/
def reg_var (l : List ℚ) : ℚ := (l.map (fun v => (v - reg_mean l) ^ 2)).sum

def over_under_ge (a b : MoneyRow) : Prop := decide (b.over_under ≤ a.over_under) = true

instance : DecidableRel over_under_ge := fun _ _ => inferInstanceAs (Decidable (_ = true))

/-- The `money_vs_points` output section: `None` when the fantasy source is
absent, and also when no fantasy team matches a league-table row
(`if money_rows:`). -/
def money_vs_points_sec (fpl : Option (List PlayerRecord)) (table : List TeamRow) :
    Option MoneyVsPoints :=
  match fpl with
  | none => none
  | some ps =>
    let base := money_base ps table
    if base.isEmpty then none
    else
      let values := base.map (fun r => r.squad_value)
      let points := base.map (fun r => (r.points : ℚ))
      let reg := lin_reg values points
      let rows := base.map (fun r =>
        ({ team := r.team, squad_value := r.squad_value, points := r.points,
           played := r.played, points_per_match := r.points_per_match,
           expected_points := safe_float 2 (reg.1 * r.squad_value + reg.2.1),
           over_under := safe_float 2 ((r.points : ℚ) - (reg.1 * r.squad_value + reg.2.1)) }
          : MoneyRow))
      some { teams := rows.insertionSort over_under_ge
             regression := { slope := safe_float 4 reg.1, intercept := safe_float 2 reg.2.1,
                             r_squared := safe_float 3 reg.2.2 } }

/-! ## C3: empty vs absent fantasy dataset -/

/-- C3 counterexample: with a present-but-empty fantasy dataset the
`player_leaderboards` section is a populated object of empty leaderboards,
not the `null` marker the claim requires. -/
theorem c3_counterexample : player_leaderboards_sec (some []) none ≠ none := by
  simp [player_leaderboards_sec]

/-- C3 amended: when the fantasy source is absent both sections are `null`;
when it is present but empty, `money_vs_points` is still `null` (its row
list degenerates to empty) but `player_leaderboards` is a non-null object
whose five ranked leaderboards are empty lists and whose
`goals_by_position` is the fixed four-row FWD/MID/DEF/GK list of zero
aggregates. -/
theorem c3_empty_fpl_sections (xgp : Option (List XGPlayer)) (table : List TeamRow) :
    player_leaderboards_sec none xgp = none ∧
    money_vs_points_sec none table = none ∧
    money_vs_points_sec (some []) table = none ∧
    (player_leaderboards_sec (some []) xgp).isSome = true ∧
    (player_leaderboards_sec (some []) xgp).map (fun lb => lb.goal_scorers) = some [] ∧
    (player_leaderboards_sec (some []) xgp).map (fun lb => lb.assist_leaders) = some [] ∧
    (player_leaderboards_sec (some []) xgp).map (fun lb => lb.iron_men) = some [] ∧
    (player_leaderboards_sec (some []) xgp).map (fun lb => lb.best_value) = some [] ∧
    (player_leaderboards_sec (some []) xgp).map (fun lb => lb.most_cards) = some [] ∧
    (player_leaderboards_sec (some []) xgp).map (fun lb => lb.goals_by_position) =
      some (["FWD", "MID", "DEF", "GK"].map (fun pos =>
        { position := pos, total_goals := 0, total_assists := 0,
          player_count := 0, avg_goals := 0 })) := by
  refine ⟨rfl, rfl, rfl, rfl, rfl, rfl, rfl, rfl, rfl, ?_⟩
  have hgbp : goals_by_position_board ([] : List PlayerRecord) =
      ["FWD", "MID", "DEF", "GK"].map (fun pos =>
        { position := pos, total_goals := 0, total_assists := 0,
          player_count := 0, avg_goals := 0 }) := by
    simp [goals_by_position_board, pos_row, safe_float_zero]
  show some (goals_by_position_board ([] : List PlayerRecord)) = _
  rw [hgbp]

/-! ## C7: the regression -/

/-- C7: the regression computes slope = covariance/variance (0 when the
variance is 0), intercept = mean(points) − slope·mean(value), and
R² = cov²/(var_x·var_y) guarded to 0 when either variance is 0; on squad
values [10,20,30] and points [40,50,60] it yields exactly (1, 30, 1). -/
theorem c7_regression (vs ps : List ℚ) (h : vs.length = ps.length) :
    ((lin_reg vs ps).1 = if reg_var vs > 0 then reg_cov vs ps / reg_var vs else 0) ∧
    (lin_reg vs ps).2.1 = reg_mean ps - (lin_reg vs ps).1 * reg_mean vs ∧
    ((lin_reg vs ps).2.2 =
      if reg_var vs > 0 ∧ reg_var ps > 0 then
        reg_cov vs ps ^ 2 / (reg_var vs * reg_var ps)
      else 0) ∧
    lin_reg [10, 20, 30] [40, 50, 60] = (1, 30, 1) := by
  refine ⟨?_, ?_, ?_, ?_⟩
  · simp only [lin_reg, reg_var, reg_cov, reg_mean, h]
  · simp only [lin_reg, reg_var, reg_cov, reg_mean, h]
  · simp only [lin_reg, reg_var, reg_cov, reg_mean, h]
  · simp only [lin_reg, List.length_cons, List.length_nil, List.zip_cons_cons,
      List.zip_nil_right, List.map_cons, List.map_nil, List.sum_cons, List.sum_nil]
    norm_num

/-- Witness for C7: the regression at the spec's concrete input. -/
theorem c7_regression_witness : lin_reg [10, 20, 30] [40, 50, 60] = (1, 30, 1) :=
  (c7_regression [10, 20, 30] [40, 50, 60] rfl).2.2.2

/-! ## Match aggregators and season status -/

structure SeasonStatus where
  matches_played : Nat
  matches_total : Nat
  matchdays_played : Nat
  matchdays_total : Nat
  is_complete : Bool
  last_match_date : String
deriving DecidableEq

/-- `games_per_team = home_counts.add(away_counts, fill_value=0)` for one team. -/
def games_per_team (cur : List Match) (t : String) : Nat :=
  (cur.filter (fun m => decide (m.home_team = t))).length +
    (cur.filter (fun m => decide (m.away_team = t))).length

/-- `safe_int(games_per_team.max())` (0 for an empty series, via `safe_int`). -/
def matchdays_played_calc (cur : List Match) : Nat :=
  ((teams_of cur).map (games_per_team cur)).foldr max 0

/-- `current['date'].max() if len(current) > 0 else ""` (the empty string is
a bottom element of the date order, so a fold from it is the maximum). -/
def last_match_date_calc (cur : List Match) : String :=
  (cur.map (fun m => m.date)).foldl
    (fun a b => if lcLe a.data b.data = true then b else a) ""

def season_status_sec (cur : List Match) : SeasonStatus :=
  { matches_played := cur.length
    matches_total := FULL_SEASON_MATCHES
    matchdays_played := matchdays_played_calc cur
    matchdays_total := 38
    is_complete := decide (cur.length ≥ FULL_SEASON_MATCHES)
    last_match_date := last_match_date_calc cur }

structure MonthRow where
  month : String
  matches_count : Nat
  total_goals : Nat
  avg_goals : ℚ
  home_wins : Nat
  draws : Nat
  away_wins : Nat
deriving DecidableEq

/-- `current_with_month['month'] = current['date'].str[:7]`. -/
def month_of (m : Match) : String := String.mk (m.date.data.take 7)

/-- The month group keys (pandas `groupby` sorts them; the explicit
`sort_values('month')` re-sorts the same way). -/
def months_of (cur : List Match) : List String :=
  ((cur.map month_of).dedup).insertionSort str_le

def month_row (cur : List Match) (mo : String) : MonthRow :=
  let g := cur.filter (fun m => decide (month_of m = mo))
  { month := mo
    matches_count := g.length
    total_goals := (g.map (fun m => m.total_goals)).sum
    avg_goals := safe_float 2 (((g.map (fun m => m.total_goals)).sum : ℚ) / (g.length : ℚ))
    home_wins := (g.filter (fun m => decide (m.result = MRes.H))).length
    draws := (g.filter (fun m => decide (m.result = MRes.D))).length
    away_wins := (g.filter (fun m => decide (m.result = MRes.A))).length }

def monthly_trends_sec (cur : List Match) : List MonthRow :=
  (months_of cur).map (month_row cur)

structure HomeAway where
  home_wins : Nat
  draws : Nat
  away_wins : Nat
  home_goals_avg : ℚ
  away_goals_avg : ℚ
  total_matches : Nat
  home_win_pct : ℚ
  draw_pct : ℚ
  away_win_pct : ℚ
deriving DecidableEq

/-- The league-wide home/away split; the `.mean()` of an empty frame is NaN,
which `safe_float` turns into 0; percentages divide by `max(total, 1)`. -/
def home_away_sec (cur : List Match) : HomeAway :=
  let hw := (cur.filter (fun m => decide (m.result = MRes.H))).length
  let d := (cur.filter (fun m => decide (m.result = MRes.D))).length
  let aw := (cur.filter (fun m => decide (m.result = MRes.A))).length
  let total := if cur.length > 0 then cur.length else 1
  { home_wins := hw
    draws := d
    away_wins := aw
    home_goals_avg :=
      if cur.length > 0 then
        safe_float 2 (((cur.map (fun m => m.home_goals)).sum : ℚ) / (cur.length : ℚ))
      else 0
    away_goals_avg :=
      if cur.length > 0 then
        safe_float 2 (((cur.map (fun m => m.away_goals)).sum : ℚ) / (cur.length : ℚ))
      else 0
    total_matches := cur.length
    home_win_pct := safe_float 2 ((hw : ℚ) / (total : ℚ) * 100)
    draw_pct := safe_float 2 ((d : ℚ) / (total : ℚ) * 100)
    away_win_pct := safe_float 2 ((aw : ℚ) / (total : ℚ) * 100) }

structure RefRow where
  referee : String
  matches_count : Nat
  avg_goals : ℚ
  avg_fouls : ℚ
  avg_cards : ℚ
  total_reds : Nat
deriving DecidableEq

def refs_of (cur : List Match) : List String :=
  ((cur.map (fun m => m.referee)).dedup).insertionSort str_le

def ref_row (cur : List Match) (r : String) : RefRow :=
  let g := cur.filter (fun m => decide (m.referee = r))
  { referee := r
    matches_count := g.length
    avg_goals := safe_float 2 (((g.map (fun m => m.total_goals)).sum : ℚ) / (g.length : ℚ))
    avg_fouls := safe_float 2 (((g.map (fun m => m.total_fouls)).sum : ℚ) / (g.length : ℚ))
    avg_cards := safe_float 2 (((g.map (fun m => m.total_cards)).sum : ℚ) / (g.length : ℚ))
    total_reds := (g.map (fun m => m.home_reds)).sum + (g.map (fun m => m.away_reds)).sum }

def ref_cards_ge (a b : RefRow) : Prop := decide (b.avg_cards ≤ a.avg_cards) = true

instance : DecidableRel ref_cards_ge := fun _ _ => inferInstanceAs (Decidable (_ = true))

/-- Referee stats: groups with fewer than 3 matches are skipped; sorted by
average cards descending. -/
def referee_stats_sec (cur : List Match) : List RefRow :=
  ((refs_of cur).filterMap (fun r =>
    if (cur.filter (fun m => decide (m.referee = r))).length < 3 then none
    else some (ref_row cur r))).insertionSort ref_cards_ge

/-- `score = home_goals.astype(str) + '-' + away_goals.astype(str)`. -/
def score_str (m : Match) : String :=
  toString m.home_goals ++ "-" ++ toString m.away_goals

def count_ge (a b : String × Nat) : Prop := decide (b.2 ≤ a.2) = true

instance : DecidableRel count_ge := fun _ _ => inferInstanceAs (Decidable (_ = true))

/-- `value_counts().head(10)`: distinct scorelines with their counts, most
frequent first.  `value_counts` enumerates its hash table in per-process
order (string-hash randomization) and `sort_values` is unstable, so the
relative order of equally frequent scorelines — and which of them survive
the `head(10)` cutoff under a tie at the boundary — is run state, not a
function of the input.  `reorder` models that ambient enumeration order: it
is applied to the canonical list of distinct scorelines before the
(stable) sort by count, so the reachable outputs range over exactly the
tie orders the program can emit. -/
def scoreline_frequency_sec (reorder : List String → List String)
    (cur : List Match) : List (String × Nat) :=
  (((reorder ((cur.map score_str).dedup)).map (fun s =>
    (s, (cur.filter (fun m => decide (score_str m = s))).length))).insertionSort
      count_ge).take 10

structure SeasonRow where
  season : String
  matches_count : Nat
  avg_goals : ℚ
  avg_cards : ℚ
  home_win_pct : ℚ
  avg_fouls : ℚ
deriving DecidableEq

def season_row (df : List Match) (s : String) : SeasonRow :=
  let g := df.filter (fun m => decide (m.season = s))
  { season := s
    matches_count := g.length
    avg_goals := safe_float 2 (((g.map (fun m => m.total_goals)).sum : ℚ) / (g.length : ℚ))
    avg_cards := safe_float 2 (((g.map (fun m => m.total_cards)).sum : ℚ) / (g.length : ℚ))
    home_win_pct := safe_float 2
      (((g.filter (fun m => decide (m.result = MRes.H))).length : ℚ) / (g.length : ℚ) * 100)
    avg_fouls := safe_float 2 (((g.map (fun m => m.total_fouls)).sum : ℚ) / (g.length : ℚ)) }

/-- Season comparison over the configured seasons with at least one match. -/
def season_comparison_sec (df : List Match) : List SeasonRow :=
  (ACTIVE_SEASON_KEYS.filter (fun s =>
    decide ((df.filter (fun m => decide (m.season = s))).length ≠ 0))).map (season_row df)

/-! ## Remaining conditional sections (`top_scorers`, `player_value`) -/

structure TopScorerRow where
  player_name : String
  team : String
  goals : Nat
  assists : Nat
  xg : ℚ
  xa : ℚ
  minutes : Nat
  goals_minus_xg : ℚ
  position : String
deriving DecidableEq

def xp_goals_ge (a b : XGPlayer) : Prop := decide (b.goals ≤ a.goals) = true

instance : DecidableRel xp_goals_ge := fun _ _ => inferInstanceAs (Decidable (_ = true))

/-- Top scorers from the xG player source: goals > 0, top 10 by goals. -/
def top_scorers_sec (xps : List XGPlayer) : List TopScorerRow :=
  ((((dropna_names xps).filter (fun x => decide (x.goals > 0))).insertionSort
    xp_goals_ge).take 10).map (fun x =>
      { player_name := x.player_name, team := x.team, goals := x.goals,
        assists := x.assists, xg := safe_float 2 x.xg, xa := safe_float 2 x.xa,
        minutes := x.minutes,
        goals_minus_xg := safe_float 2 ((x.goals : ℚ) - safe_float 2 x.xg),
        position := x.position })

structure PVRow where
  player_name : String
  team : String
  price : ℚ
  goals : Nat
  goals_per_million : ℚ
deriving DecidableEq

/-- `(value_df['goals'] / value_df['price']).round(2)`. -/
def gpm (p : PlayerRecord) : ℚ := safe_float 2 ((p.goals : ℚ) / p.price)

def p_gpm_ge (a b : PlayerRecord) : Prop := decide (gpm b ≤ gpm a) = true

instance : DecidableRel p_gpm_ge := fun _ _ => inferInstanceAs (Decidable (_ = true))

/-- `player_value`: scorers with positive price, top 10 by goals-per-million. -/
def player_value_sec (ps : List PlayerRecord) : List PVRow :=
  ((((ps.filter (fun p => decide (p.goals > 0))).filter
    (fun p => decide (p.price > 0))).insertionSort p_gpm_ge).take 10).map (fun p =>
      { player_name := p.player_name, team := p.team, price := safe_float 1 p.price,
        goals := p.goals, goals_per_million := gpm p })

/-! ## The assembled output document -/

/-- The output document (`dashboard_data.json`).  Optional sections are
`none` when their source is unavailable.  In the exact-rational model every
numeric value is finite, so the final `sanitize_for_json` NaN/Infinity scrub
is the identity. -/
structure Output where
  generated_at : String
  season : String
  source : String
  total_matches : Nat
  total_goals : Nat
  goals_per_match : ℚ
  season_status : SeasonStatus
  league_table : List TeamRow
  cumulative_points : List (String × List (Nat × Nat))
  monthly_trends : List MonthRow
  home_away : HomeAway
  referee_stats : List RefRow
  scoreline_frequency : List (String × Nat)
  season_comparison : List SeasonRow
  xg_table : Option (List XGTableRow)
  xg_vs_actual : Option (List XGScatterRow)
  top_scorers : Option (List TopScorerRow)
  shot_quality : Option (List SQRow)
  player_value : Option (List PVRow)
  player_leaderboards : Option Leaderboards
  money_vs_points : Option MoneyVsPoints
deriving DecidableEq

/-- The document assembly of `main()`.  Two inputs are run state rather
than data: `now` models `pd.Timestamp.now()`, and `reorder` models the
per-process hash-enumeration order inside `value_counts` (see
`scoreline_frequency_sec`). -/
def build_output (now : String) (reorder : List String → List String)
    (df : List Match) (fpl : Option (List PlayerRecord))
    (xg : Option (List XGTeam × List XGPlayer)) : Output :=
  let cur := df.filter (fun m => decide (m.season = CURRENT_SEASON))
  let table := league_table cur
  let total := if cur.length > 0 then cur.length else 1
  let tg := (cur.map (fun m => m.total_goals)).sum
  { generated_at := now
    season := CURRENT_SEASON
    source := "football-data.co.uk"
    total_matches := cur.length
    total_goals := tg
    goals_per_match := safe_float 2 (if total > 0 then (tg : ℚ) / (total : ℚ) else 0)
    season_status := season_status_sec cur
    league_table := table
    cumulative_points := (teams_of cur).map (fun t => (t, cumulative_points cur t))
    monthly_trends := monthly_trends_sec cur
    home_away := home_away_sec cur
    referee_stats := referee_stats_sec cur
    scoreline_frequency := scoreline_frequency_sec reorder cur
    season_comparison := season_comparison_sec df
    xg_table := xg.map (fun z => xg_table_sec z.1 table)
    xg_vs_actual := xg.map (fun z => xg_vs_actual_sec z.1)
    top_scorers := xg.map (fun z => top_scorers_sec z.2)
    shot_quality := xg.map (fun z => shot_quality_sec z.1 table)
    player_value := fpl.map (fun ps => player_value_sec ps)
    player_leaderboards := player_leaderboards_sec fpl (xg.map (fun z => z.2))
    money_vs_points := money_vs_points_sec fpl table }

/-- The run: `sys.exit(1)` (no document) when the match dataset file is
missing, otherwise the assembled document. -/
def run_transform (now : String) (reorder : List String → List String)
    (mdata : Option (List Match)) (fpl : Option (List PlayerRecord))
    (xg : Option (List XGTeam × List XGPlayer)) : Option Output :=
  match mdata with
  | none => none
  | some df => some (build_output now reorder df fpl xg)

/-! ## C2: missing vs empty match dataset -/

/-- C2 counterexample: with a present-but-empty match dataset the run still
emits a document, refuting "missing or empty is fatal and emits no output". -/
theorem c2_counterexample :
    run_transform "2026-01-01T00:00:00" id (some []) none none ≠ none := by
  simp [run_transform]

/-- C2 amended: only the *missing* dataset is fatal (no document); an empty
dataset flows through the guards and yields a document with zero matches. -/
theorem c2_missing_vs_empty (now : String) (reorder : List String → List String)
    (fpl : Option (List PlayerRecord)) (xg : Option (List XGTeam × List XGPlayer)) :
    run_transform now reorder none fpl xg = none ∧
    run_transform now reorder (some []) fpl xg =
      some (build_output now reorder [] fpl xg) ∧
    (build_output now reorder [] fpl xg).total_matches = 0 :=
  ⟨rfl, rfl, rfl⟩

/-! ## C8: determinism of the output document -/

/-- C8 counterexample: two runs on identical input differ in `generated_at`
(`pd.Timestamp.now()`), so the documents are not identical. -/
theorem c8_counterexample :
    build_output "2026-01-01T00:00:00" id [] none none ≠
      build_output "2026-01-01T00:00:01" id [] none none := by
  intro h
  have hgen := congrArg Output.generated_at h
  simp only [build_output] at hgen
  exact absurd hgen (by decide)

/-- Erase the two run-dependent pieces of the document: the timestamp and
the scoreline-frequency section (whose tie order follows the hash
enumeration inside `value_counts`). -/
def strip_run_dependent (o : Output) : Output :=
  { o with generated_at := "", scoreline_frequency := [] }

/-- Two matches with distinct scorelines, each occurring once: a count tie. -/
def c8_match_a : Match :=
  { match_id := 1, season := "2025-26", date := "2025-08-01",
    home_team := "AAA", away_team := "BBB",
    home_goals := 1, away_goals := 0, result := MRes.H, referee := "R",
    home_shots := 0, away_shots := 0,
    home_shots_on_target := 0, away_shots_on_target := 0,
    home_reds := 0, away_reds := 0,
    total_goals := 1, total_fouls := 0, total_cards := 0 }

def c8_match_b : Match :=
  { match_id := 2, season := "2025-26", date := "2025-08-02",
    home_team := "AAA", away_team := "BBB",
    home_goals := 2, away_goals := 0, result := MRes.H, referee := "R",
    home_shots := 0, away_shots := 0,
    home_shots_on_target := 0, away_shots_on_target := 0,
    home_reds := 0, away_reds := 0,
    total_goals := 2, total_fouls := 0, total_cards := 0 }

/-- C8 amended: re-running on identical input reproduces every section
except `generated_at` (the wall clock) and `scoreline_frequency`, whose
order among equally frequent scorelines follows the per-process hash
enumeration inside `value_counts` rather than the input: the first conjunct
says everything else is a pure function of the input datasets for *any* two
clock readings and enumeration orders, and the second exhibits two
enumeration orders of the same two tied scorelines that make the
scoreline-frequency section differ. -/
theorem c8_deterministic_modulo_run_state (t1 t2 : String)
    (r1 r2 : List String → List String) (df : List Match)
    (fpl : Option (List PlayerRecord)) (xg : Option (List XGTeam × List XGPlayer)) :
    strip_run_dependent (build_output t1 r1 df fpl xg) =
      strip_run_dependent (build_output t2 r2 df fpl xg) ∧
    scoreline_frequency_sec id [c8_match_a, c8_match_b] ≠
      scoreline_frequency_sec List.reverse [c8_match_a, c8_match_b] :=
  ⟨rfl, by decide⟩

end EPL
